import Mathlib

set_option maxHeartbeats 1000000

/-! Verification of rs-reals2array (src/lib.rs): conversion of sequences of
floating-point numbers (and optional floating-point numbers) into immutable
nullable columnar arrays, with IEEE-754 NaN normalized to a null entry, plus
extraction of normalized optional f64 values from JSON values. -/

namespace Reals2Array

/-- Model of the external arrow PrimitiveBuilder collaborator contract: a
growable append-only accumulator created with a capacity hint, supporting
append of a valid value or of a null, finalized into an array. The hint is
recorded in the state but, per the collaborator contract, only affects
allocation, never the accumulated entries. -/
structure PrimitiveBuilder (W : Type) where
  cap : Nat
  entries : List (Option W)
deriving DecidableEq

def PrimitiveBuilder.with_capacity {W : Type} (cap : Nat) : PrimitiveBuilder W :=
  { cap := cap, entries := [] }

def PrimitiveBuilder.append_value {W : Type} (b : PrimitiveBuilder W) (v : W) :
    PrimitiveBuilder W :=
  { b with entries := b.entries ++ [some v] }

def PrimitiveBuilder.append_null {W : Type} (b : PrimitiveBuilder W) :
    PrimitiveBuilder W :=
  { b with entries := b.entries ++ [none] }

/-- Model of the external arrow PrimitiveArray collaborator: an immutable
ordered sequence of width-W slots, each either a valid value or null. -/
structure PrimitiveArray (W : Type) where
  entries : List (Option W)
deriving DecidableEq

def PrimitiveBuilder.finish {W : Type} (b : PrimitiveBuilder W) : PrimitiveArray W :=
  { entries := b.entries }

def PrimitiveArray.len {W : Type} (a : PrimitiveArray W) : Nat :=
  a.entries.length

def PrimitiveArray.null_count {W : Type} (a : PrimitiveArray W) : Nat :=
  (a.entries.filter fun o => o.isNone).length

def PrimitiveArray.is_valid {W : Type} (a : PrimitiveArray W) (i : Nat) : Bool :=
  match a.entries.get? i with
  | some (some _) => true
  | _ => false

def PrimitiveArray.value {W : Type} (a : PrimitiveArray W) (i : Nat) : Option W :=
  (a.entries.get? i).bind id

/-- Bit-pattern model of the half-precision native type (half::f16). -/
structure Float16 where
  bits : Nat
deriving DecidableEq

/-- NaN test of half::f16: exponent field all ones and significand nonzero
(true for every NaN encoding, any sign and any payload). -/
def Float16.is_nan (x : Float16) : Bool :=
  ((x.bits &&& 0x7C00) == 0x7C00) && ((x.bits &&& 0x03FF) != 0)

/-- Bit-pattern model of the single-precision native type (f32). -/
structure Float32 where
  bits : Nat
deriving DecidableEq

/-- NaN test of f32: exponent field all ones and significand nonzero. -/
def Float32.is_nan (x : Float32) : Bool :=
  ((x.bits &&& 0x7F800000) == 0x7F800000) && ((x.bits &&& 0x007FFFFF) != 0)

/-- Bit-pattern model of the double-precision native type (f64). -/
structure Float64 where
  bits : Nat
deriving DecidableEq

/-- NaN test of f64: exponent field all ones and significand nonzero. -/
def Float64.is_nan (x : Float64) : Bool :=
  ((x.bits &&& 0x7FF0000000000000) == 0x7FF0000000000000) &&
    ((x.bits &&& 0x000FFFFFFFFFFFFF) != 0)

/-- Embedding of `nan2none`: the FloatType trait dispatch is rendered as an
explicit `isNan` predicate parameter; `ok.then_some(num)` is the conditional. -/
def nan2none {W : Type} (isNan : W → Bool) (num : W) : Option W :=
  let nan : Bool := isNan num
  let ok : Bool := !nan
  if ok then some num else none

/-- Embedding of `num2builder`: appends the normalized raw value, as a valid
entry when present and as a null when absent. -/
def num2builder {W : Type} (isNan : W → Bool) (num : W) (bldr : PrimitiveBuilder W) :
    PrimitiveBuilder W :=
  let o : Option W := nan2none isNan num
  match o with
  | none => bldr.append_null
  | some i => bldr.append_value i

/-- Embedding of `opt2builder`: `num.and_then(nan2none)` is `Option.bind`. -/
def opt2builder {W : Type} (isNan : W → Bool) (num : Option W)
    (bldr : PrimitiveBuilder W) : PrimitiveBuilder W :=
  let o : Option W := num.bind (nan2none isNan)
  match o with
  | none => bldr.append_null
  | some i => bldr.append_value i

/-- Embedding of `num2array`: the one-pass iterator is a list, the for loop a
left fold over the builder state. -/
def num2array {W : Type} (isNan : W → Bool) (num : List W) (cap : Nat) :
    PrimitiveArray W :=
  let bldr : PrimitiveBuilder W := PrimitiveBuilder.with_capacity cap
  (num.foldl (fun b n => num2builder isNan n b) bldr).finish

/-- Embedding of `opt2array`. -/
def opt2array {W : Type} (isNan : W → Bool) (num : List (Option W)) (cap : Nat) :
    PrimitiveArray W :=
  let bldr : PrimitiveBuilder W := PrimitiveBuilder.with_capacity cap
  (num.foldl (fun b n => opt2builder isNan n b) bldr).finish

def CAPACITY_DEFAULT : Nat := 1024

def num2array_default {W : Type} (isNan : W → Bool) (num : List W) :
    PrimitiveArray W :=
  num2array isNan num CAPACITY_DEFAULT

def opt2array_default {W : Type} (isNan : W → Bool) (num : List (Option W)) :
    PrimitiveArray W :=
  opt2array isNan num CAPACITY_DEFAULT

/-- Expansion of the num2arr macro at Float16Type. -/
def num2arr16f (num : List Float16) : PrimitiveArray Float16 :=
  num2array_default Float16.is_nan num

/-- Expansion of the num2arr macro at Float32Type. -/
def num2arr32f (num : List Float32) : PrimitiveArray Float32 :=
  num2array_default Float32.is_nan num

/-- Expansion of the num2arr macro at Float64Type. -/
def num2arr64f (num : List Float64) : PrimitiveArray Float64 :=
  num2array_default Float64.is_nan num

/-- Expansion of the opt2arr macro at Float16Type. -/
def opt2arr16f (num : List (Option Float16)) : PrimitiveArray Float16 :=
  opt2array_default Float16.is_nan num

/-- Expansion of the opt2arr macro at Float32Type. -/
def opt2arr32f (num : List (Option Float32)) : PrimitiveArray Float32 :=
  opt2array_default Float32.is_nan num

/-- Expansion of the opt2arr macro at Float64Type. -/
def opt2arr64f (num : List (Option Float64)) : PrimitiveArray Float64 :=
  opt2array_default Float64.is_nan num

/-- Model of the external serde_json Number collaborator: an opaque JSON
number whose only consumed capability is `as_f64`, the fallible view of the
number as a 64-bit float (absent when not representable as f64). -/
structure Number where
  as_f64 : Option Float64

/-- Model of the external serde_json Value collaborator: a JSON value tagged
as null, boolean, number, string, array or object. -/
inductive Value where
  | null : Value
  | bool (b : Bool) : Value
  | number (n : Number) : Value
  | string (s : String) : Value
  | array (vs : List Value) : Value
  | object (fields : List (String × Value)) : Value

/-- Embedding of `num2opt`. -/
def num2opt (n : Number) : Option Float64 :=
  let of : Option Float64 := n.as_f64
  of.bind (nan2none Float64.is_nan)

/-- Embedding of `val2opt`. -/
def val2opt (v : Value) : Option Float64 :=
  match v with
  | Value.number n => num2opt n
  | _ => none

/-! Helper lemmas shared by the claim theorems. -/

theorem PrimitiveArray.entries_ext {W : Type} {a b : PrimitiveArray W}
    (h : a.entries = b.entries) : a = b := by
  cases a
  cases b
  exact congrArg PrimitiveArray.mk h

theorem num2builder_entries {W : Type} (isNan : W → Bool) (x : W)
    (b : PrimitiveBuilder W) :
    (num2builder isNan x b).entries = b.entries ++ [nan2none isNan x] := by
  unfold num2builder
  cases h : nan2none isNan x <;>
    simp [h, PrimitiveBuilder.append_null, PrimitiveBuilder.append_value]

theorem opt2builder_entries {W : Type} (isNan : W → Bool) (o : Option W)
    (b : PrimitiveBuilder W) :
    (opt2builder isNan o b).entries = b.entries ++ [o.bind (nan2none isNan)] := by
  unfold opt2builder
  cases h : o.bind (nan2none isNan) <;>
    simp [h, PrimitiveBuilder.append_null, PrimitiveBuilder.append_value]

theorem foldl_num2builder_entries {W : Type} (isNan : W → Bool) (xs : List W)
    (b : PrimitiveBuilder W) :
    (xs.foldl (fun b n => num2builder isNan n b) b).entries =
      b.entries ++ xs.map (nan2none isNan) := by
  induction xs generalizing b with
  | nil => simp
  | cons x xs ih =>
    simp only [List.foldl_cons, List.map_cons]
    rw [ih, num2builder_entries]
    simp

theorem foldl_opt2builder_entries {W : Type} (isNan : W → Bool)
    (xs : List (Option W)) (b : PrimitiveBuilder W) :
    (xs.foldl (fun b n => opt2builder isNan n b) b).entries =
      b.entries ++ xs.map (fun o => o.bind (nan2none isNan)) := by
  induction xs generalizing b with
  | nil => simp
  | cons x xs ih =>
    simp only [List.foldl_cons, List.map_cons]
    rw [ih, opt2builder_entries]
    simp

theorem num2array_entries {W : Type} (isNan : W → Bool) (xs : List W) (cap : Nat) :
    (num2array isNan xs cap).entries = xs.map (nan2none isNan) := by
  unfold num2array
  rw [PrimitiveBuilder.finish, foldl_num2builder_entries]
  simp [PrimitiveBuilder.with_capacity]

theorem opt2array_entries {W : Type} (isNan : W → Bool) (xs : List (Option W))
    (cap : Nat) :
    (opt2array isNan xs cap).entries =
      xs.map (fun o => o.bind (nan2none isNan)) := by
  unfold opt2array
  rw [PrimitiveBuilder.finish, foldl_opt2builder_entries]
  simp [PrimitiveBuilder.with_capacity]

theorem nan2none_eq_ite {W : Type} (isNan : W → Bool) (x : W) :
    nan2none isNan x = if isNan x then none else some x := by
  unfold nan2none
  cases h : isNan x <;> simp [h]

theorem num2array_get {W : Type} (isNan : W → Bool) (xs : List W) (cap i : Nat) :
    (num2array isNan xs cap).entries.get? i = (xs.get? i).map (nan2none isNan) := by
  rw [num2array_entries, List.get?_map]

theorem opt2array_get {W : Type} (isNan : W → Bool) (xs : List (Option W))
    (cap i : Nat) :
    (opt2array isNan xs cap).entries.get? i =
      (xs.get? i).map (fun o => o.bind (nan2none isNan)) := by
  rw [opt2array_entries, List.get?_map]

theorem nan2none_eq_none_iff {W : Type} (isNan : W → Bool) (v : W) :
    nan2none isNan v = none ↔ isNan v = true := by
  rw [nan2none_eq_ite]
  cases h : isNan v <;> simp [h]

theorem nan2none_eq_some_iff {W : Type} (isNan : W → Bool) (v z : W) :
    nan2none isNan v = some z ↔ (v = z ∧ isNan v = false) := by
  rw [nan2none_eq_ite]
  cases h : isNan v <;> simp [h]

theorem num2array_slot {W : Type} (isNan : W → Bool) (xs : List W) (cap i : Nat)
    (x : W) :
    (((num2array isNan xs cap).entries.get? i = some (some x)) ↔
      (xs.get? i = some x ∧ isNan x = false)) ∧
    (((num2array isNan xs cap).entries.get? i = some none) ↔
      (∃ y, xs.get? i = some y ∧ isNan y = true)) := by
  rw [num2array_get]
  cases h : xs.get? i with
  | none => simp
  | some y =>
    simp only [Option.map_some']
    constructor
    · constructor
      · intro hc
        rcases (nan2none_eq_some_iff isNan y x).mp (Option.some.inj hc) with
          ⟨hyx, hny⟩
        subst hyx
        exact ⟨rfl, hny⟩
      · rintro ⟨hyx, hnx⟩
        have hyx2 : y = x := Option.some.inj hyx
        subst hyx2
        exact congrArg some ((nan2none_eq_some_iff isNan y y).mpr ⟨rfl, hnx⟩)
    · constructor
      · intro hc
        exact ⟨y, rfl, (nan2none_eq_none_iff isNan y).mp (Option.some.inj hc)⟩
      · rintro ⟨z, hz, hzn⟩
        have hz2 : y = z := Option.some.inj hz
        subst hz2
        exact congrArg some ((nan2none_eq_none_iff isNan y).mpr hzn)

/-- C1: for every input sequence, num2array and opt2array produce an array
whose length equals the number of input elements, and the slot at index i is
valid if and only if the normalized value of input element i is present (raw
element i non-NaN for num2array; element i Some of a non-NaN value for
opt2array), slots in input order. -/
theorem num2array_opt2array_order_preservation {W : Type} (isNan : W → Bool)
    (xs : List W) (os : List (Option W)) (cap : Nat) :
    (num2array isNan xs cap).len = xs.length ∧
    (opt2array isNan os cap).len = os.length ∧
    (∀ i : Nat, (num2array isNan xs cap).is_valid i =
      (xs.get? i).elim false (fun x => (nan2none isNan x).isSome)) ∧
    (∀ i : Nat, (opt2array isNan os cap).is_valid i =
      (os.get? i).elim false (fun o => (o.bind (nan2none isNan)).isSome)) := by
  refine ⟨?_, ?_, ?_, ?_⟩
  · rw [PrimitiveArray.len, num2array_entries, List.length_map]
  · rw [PrimitiveArray.len, opt2array_entries, List.length_map]
  · intro i
    rw [PrimitiveArray.is_valid, num2array_get]
    cases h : xs.get? i with
    | none => rfl
    | some x =>
      simp only [Option.map_some', Option.elim_some]
      cases hx : nan2none isNan x <;> simp
  · intro i
    rw [PrimitiveArray.is_valid, opt2array_get]
    cases h : os.get? i with
    | none => rfl
    | some o =>
      simp only [Option.map_some', Option.elim_some]
      cases hx : o.bind (nan2none isNan) <;> simp

/-- C2: at each supported width, the slot of num2array corresponding to input
element x is null if and only if x is NaN (any encoding, including negative
NaN and any payload), and every non-NaN x appears as a valid entry preserved
bit-for-bit. -/
theorem num2array_nan_to_null :
    (∀ (xs : List Float16) (cap i : Nat) (x : Float16),
      (((num2array Float16.is_nan xs cap).entries.get? i = some (some x)) ↔
        (xs.get? i = some x ∧ Float16.is_nan x = false)) ∧
      (((num2array Float16.is_nan xs cap).entries.get? i = some none) ↔
        (∃ y, xs.get? i = some y ∧ Float16.is_nan y = true))) ∧
    (∀ (xs : List Float32) (cap i : Nat) (x : Float32),
      (((num2array Float32.is_nan xs cap).entries.get? i = some (some x)) ↔
        (xs.get? i = some x ∧ Float32.is_nan x = false)) ∧
      (((num2array Float32.is_nan xs cap).entries.get? i = some none) ↔
        (∃ y, xs.get? i = some y ∧ Float32.is_nan y = true))) ∧
    (∀ (xs : List Float64) (cap i : Nat) (x : Float64),
      (((num2array Float64.is_nan xs cap).entries.get? i = some (some x)) ↔
        (xs.get? i = some x ∧ Float64.is_nan x = false)) ∧
      (((num2array Float64.is_nan xs cap).entries.get? i = some none) ↔
        (∃ y, xs.get? i = some y ∧ Float64.is_nan y = true))) :=
  ⟨fun xs cap i x => num2array_slot Float16.is_nan xs cap i x,
   fun xs cap i x => num2array_slot Float32.is_nan xs cap i x,
   fun xs cap i x => num2array_slot Float64.is_nan xs cap i x⟩

/-- C3: an absent input to opt2builder always appends a null, independent of
any wrapped value; a present input delegates to the raw normalization
nan2none; the normalized optional is never a present NaN; and an absent input
never becomes present under the normalization. -/
theorem opt2builder_absent_propagation {W : Type} (isNan : W → Bool)
    (b : PrimitiveBuilder W) (x : W) (o : Option W) :
    opt2builder isNan none b = b.append_null ∧
    opt2builder isNan (some x) b = num2builder isNan x b ∧
    (o.bind (nan2none isNan)).elim True (fun y => isNan y = false) ∧
    (none : Option W).bind (nan2none isNan) = none := by
  refine ⟨rfl, rfl, ?_, rfl⟩
  cases o with
  | none => trivial
  | some z =>
    simp only [Option.some_bind, nan2none_eq_ite]
    cases hz : isNan z with
    | true => simp
    | false => simp [hz]

/-- C4: the capacity hint never changes the observable output: for every
input sequence and any two capacity hints, num2array (and opt2array) return
equal arrays, hence equal length, element values and null positions. -/
theorem capacity_invariance {W : Type} (isNan : W → Bool) (xs : List W)
    (os : List (Option W)) (c1 c2 : Nat) :
    num2array isNan xs c1 = num2array isNan xs c2 ∧
    opt2array isNan os c1 = opt2array isNan os c2 := by
  constructor
  · exact PrimitiveArray.entries_ext
      (by rw [num2array_entries, num2array_entries])
  · exact PrimitiveArray.entries_ext
      (by rw [opt2array_entries, opt2array_entries])

/-- C5: num2array_default equals num2array with capacity 1024 and
opt2array_default equals opt2array with capacity 1024; the default capacity
constant is 1024. -/
theorem default_capacity_variants {W : Type} (isNan : W → Bool) (xs : List W)
    (os : List (Option W)) :
    num2array_default isNan xs = num2array isNan xs 1024 ∧
    opt2array_default isNan os = opt2array isNan os 1024 ∧
    CAPACITY_DEFAULT = 1024 :=
  ⟨rfl, rfl, rfl⟩

/-- C6: each of the six width-specialized entry points returns exactly the
array of the corresponding generic operation instantiated at its width with
the default capacity. -/
theorem width_specialized_entry_points (xs16 : List Float16)
    (xs32 : List Float32) (xs64 : List Float64) (os16 : List (Option Float16))
    (os32 : List (Option Float32)) (os64 : List (Option Float64)) :
    num2arr16f xs16 = num2array Float16.is_nan xs16 CAPACITY_DEFAULT ∧
    num2arr32f xs32 = num2array Float32.is_nan xs32 CAPACITY_DEFAULT ∧
    num2arr64f xs64 = num2array Float64.is_nan xs64 CAPACITY_DEFAULT ∧
    opt2arr16f os16 = opt2array Float16.is_nan os16 CAPACITY_DEFAULT ∧
    opt2arr32f os32 = opt2array Float32.is_nan os32 CAPACITY_DEFAULT ∧
    opt2arr64f os64 = opt2array Float64.is_nan os64 CAPACITY_DEFAULT :=
  ⟨rfl, rfl, rfl, rfl, rfl, rfl⟩

/-- C7: val2opt returns absent on every JSON value not tagged as a number,
and on a number it returns num2opt of that number, which is absent exactly
when the number is not representable as f64 or the resulting f64 is NaN, and
otherwise is the representable non-NaN f64 value; no error is ever raised. -/
theorem val2opt_num2opt_correct (n : Number) (s : String) (b : Bool)
    (vs : List Value) (fs : List (String × Value)) :
    val2opt (Value.string s) = none ∧
    val2opt (Value.bool b) = none ∧
    val2opt Value.null = none ∧
    val2opt (Value.array vs) = none ∧
    val2opt (Value.object fs) = none ∧
    val2opt (Value.number n) = num2opt n ∧
    (num2opt n = none ↔
      (n.as_f64 = none ∨ ∃ x, n.as_f64 = some x ∧ Float64.is_nan x = true)) ∧
    (∀ x, num2opt n = some x ↔
      (n.as_f64 = some x ∧ Float64.is_nan x = false)) := by
  refine ⟨rfl, rfl, rfl, rfl, rfl, rfl, ?_, ?_⟩
  · cases h : n.as_f64 with
    | none => simp [num2opt, h]
    | some x =>
      simp only [num2opt, h, Option.some_bind]
      constructor
      · intro hc
        exact Or.inr ⟨x, rfl, (nan2none_eq_none_iff Float64.is_nan x).mp hc⟩
      · rintro (hnone | ⟨z, hz, hzn⟩)
        · exact absurd hnone (by simp)
        · have hz2 : x = z := Option.some.inj hz
          subst hz2
          exact (nan2none_eq_none_iff Float64.is_nan x).mpr hzn
  · intro x
    cases h : n.as_f64 with
    | none => simp [num2opt, h]
    | some y =>
      simp only [num2opt, h, Option.some_bind]
      constructor
      · intro hc
        rcases (nan2none_eq_some_iff Float64.is_nan y x).mp hc with ⟨hyx, hny⟩
        subst hyx
        exact ⟨rfl, hny⟩
      · rintro ⟨hyx, hnx⟩
        have hyx2 : y = x := Option.some.inj hyx
        subst hyx2
        exact (nan2none_eq_some_iff Float64.is_nan y y).mpr ⟨rfl, hnx⟩

/-- C8: normalization is idempotent: applying the optional normalization to
the result of nan2none x yields the same optional result as nan2none x alone,
and feeding nan2none x to opt2builder has the same effect as feeding the raw
x to num2builder. -/
theorem normalization_idempotent {W : Type} (isNan : W → Bool) (x : W)
    (b : PrimitiveBuilder W) :
    (nan2none isNan x).bind (nan2none isNan) = nan2none isNan x ∧
    opt2builder isNan (nan2none isNan x) b = num2builder isNan x b := by
  have h1 : (nan2none isNan x).bind (nan2none isNan) = nan2none isNan x := by
    rw [nan2none_eq_ite]
    cases h : isNan x with
    | true => simp
    | false => simp [nan2none_eq_ite, h]
  refine ⟨h1, ?_⟩
  unfold opt2builder num2builder
  rw [h1]

/-- C9: for an empty input sequence, num2array, opt2array, the
default-capacity variants and all six width-specialized entry points return
an array of length zero with a null count of zero. -/
theorem empty_input_all_variants {W : Type} (isNan : W → Bool) (cap : Nat) :
    ((num2array isNan ([] : List W) cap).len = 0 ∧
      (num2array isNan ([] : List W) cap).null_count = 0) ∧
    ((opt2array isNan ([] : List (Option W)) cap).len = 0 ∧
      (opt2array isNan ([] : List (Option W)) cap).null_count = 0) ∧
    ((num2array_default isNan ([] : List W)).len = 0 ∧
      (num2array_default isNan ([] : List W)).null_count = 0) ∧
    ((opt2array_default isNan ([] : List (Option W))).len = 0 ∧
      (opt2array_default isNan ([] : List (Option W))).null_count = 0) ∧
    ((num2arr16f []).len = 0 ∧ (num2arr16f []).null_count = 0) ∧
    ((num2arr32f []).len = 0 ∧ (num2arr32f []).null_count = 0) ∧
    ((num2arr64f []).len = 0 ∧ (num2arr64f []).null_count = 0) ∧
    ((opt2arr16f []).len = 0 ∧ (opt2arr16f []).null_count = 0) ∧
    ((opt2arr32f []).len = 0 ∧ (opt2arr32f []).null_count = 0) ∧
    ((opt2arr64f []).len = 0 ∧ (opt2arr64f []).null_count = 0) :=
  ⟨⟨rfl, rfl⟩, ⟨rfl, rfl⟩, ⟨rfl, rfl⟩, ⟨rfl, rfl⟩, ⟨rfl, rfl⟩, ⟨rfl, rfl⟩,
   ⟨rfl, rfl⟩, ⟨rfl, rfl⟩, ⟨rfl, rfl⟩, ⟨rfl, rfl⟩⟩

/-- C10: the raw and optional paths agree on present values: opt2builder on
Some x has exactly the effect of num2builder on x, and opt2array on a raw
sequence with every element wrapped in Some equals num2array on that
sequence with the same capacity. -/
theorem raw_optional_agreement {W : Type} (isNan : W → Bool) (x : W)
    (b : PrimitiveBuilder W) (xs : List W) (cap : Nat) :
    opt2builder isNan (some x) b = num2builder isNan x b ∧
    opt2array isNan (xs.map some) cap = num2array isNan xs cap := by
  refine ⟨rfl, ?_⟩
  apply PrimitiveArray.entries_ext
  rw [opt2array_entries, num2array_entries, List.map_map]
  rfl

end Reals2Array
